import Mathlib

/-!
Verification of the process-lifecycle controller of `camera_app.py`
(class `RPiCameraHeadless`).

The controller state is the four state variables set in `__init__`
(lines 74-77): `preview_process`, `video_process`, `recording`,
`preview_active`.  Each operation (`start_preview`, `stop_preview`,
`take_photo`, `start_video_recording`, `stop_video_recording`) is
embedded as a pure function from the state and an environment record --
the outcomes of the external-world interactions (`subprocess.Popen`,
`subprocess.run`, `poll`, `wait`, `pgrep`, file checks) -- to the new
state, a trace of OS-level events the call emits, and a result value
mirroring the classification the code prints.

A small operational semantics (`applyEvents`) interprets the event trace
as updates to the multiset of live external camera-tool processes, which
lets the one-preview/one-video invariant be stated and proved over all
reachable states.
-/

namespace CameraApp

/-- Kinds of external camera-tool processes the controller spawns. -/
inductive ProcKind
  | preview
  | photo
  | video
deriving DecidableEq

/-- OS-level events a controller operation emits, in order.
`spawn` is `subprocess.Popen`; `termGraceful` is `terminate()` followed by a
`wait` that returned inside the grace timeout; `terminate` is a `terminate()`
whose grace wait timed out (process not yet reaped); `kill` is `kill()`;
`pkillSweep` is the `sudo pkill -9 -f <tool>` orphan sweep; `exited` is an
observation (`poll`/`communicate`) that the owned process already exited;
`runOneShot` is a blocking `subprocess.run` of a one-shot tool with the given
timeout bound in seconds; `spawnFail` is a `Popen`/`run` call that raised
before any process existed. -/
inductive Event
  | spawn (k : ProcKind)
  | termGraceful (k : ProcKind)
  | terminate (k : ProcKind)
  | kill (k : ProcKind)
  | pkillSweep (k : ProcKind)
  | exited (k : ProcKind)
  | runOneShot (k : ProcKind) (timeoutSec : Option Nat)
  | spawnFail (k : ProcKind)
deriving DecidableEq

/-- Events that send an OS signal to some process. -/
def Event.isSignal : Event → Bool
  | .termGraceful _ => true
  | .terminate _ => true
  | .kill _ => true
  | .pkillSweep _ => true
  | _ => false

/-- The kind of process an event concerns. -/
def Event.kind : Event → ProcKind
  | .spawn k => k
  | .termGraceful k => k
  | .terminate k => k
  | .kill k => k
  | .pkillSweep k => k
  | .exited k => k
  | .runOneShot k _ => k
  | .spawnFail k => k

/-- Controller state: the state variables of `RPiCameraHeadless.__init__`
(camera_app.py lines 74-77).  The process handles carry no data the
lifecycle logic inspects beyond their presence, so they are `Option Unit`. -/
structure AppState where
  preview_process : Option Unit
  video_process : Option Unit
  recording : Bool
  preview_active : Bool
deriving DecidableEq

/-- The state right after `__init__`: no processes, no flags. -/
def initState : AppState :=
  { preview_process := none, video_process := none,
    recording := false, preview_active := false }

/-- Number of live processes of a kind in the process table. -/
def countK (k : ProcKind) : List ProcKind → Nat
  | [] => 0
  | x :: xs => (if x = k then 1 else 0) + countK k xs

/-- Remove one process of kind `k` (a signal delivered to the single owned
process of that kind). -/
def removeOne (k : ProcKind) : List ProcKind → List ProcKind
  | [] => []
  | x :: xs => if x = k then xs else x :: removeOne k xs

/-- Remove every process of kind `k` (the `pkill -f` sweep matches all). -/
def removeAll (k : ProcKind) : List ProcKind → List ProcKind
  | [] => []
  | x :: xs => if x = k then removeAll k xs else x :: removeAll k xs

/-- Effect of one emitted event on the table of live external processes.
A one-shot `subprocess.run` is synchronous: its process starts and is reaped
within the call, so the table is unchanged at the call boundary. -/
def applyEvent (alive : List ProcKind) : Event → List ProcKind
  | .spawn k => k :: alive
  | .termGraceful k => removeOne k alive
  | .terminate _ => alive
  | .kill k => removeOne k alive
  | .pkillSweep k => removeAll k alive
  | .exited k => removeOne k alive
  | .runOneShot _ _ => alive
  | .spawnFail _ => alive

/-- Effect of a whole event trace on the live-process table. -/
def applyEvents (alive : List ProcKind) (evs : List Event) : List ProcKind :=
  evs.foldl applyEvent alive

/-- Environment of one `stop_preview` call (camera_app.py lines 240-274):
whether `terminate()` raised, whether the 2s grace `wait` returned in time,
whether the 1s `wait` after `kill()` raised, and whether the trailing
`pgrep -f raspistill` check reported lingering processes. -/
structure StopEnv where
  termRaises : Bool
  waitGraceful : Bool
  killWaitRaises : Bool
  lingering : Bool
deriving DecidableEq

/-- Event trace of `stop_preview`.  With an owned process: graceful
terminate, or terminate plus kill, or (on an exception anywhere in the
try block) the `sudo pkill -f raspistill` fallback of the except branch;
the 1s wait after `kill` raising also lands in a sweep (lines 244-260).
Afterwards, lines 264-272: if `pgrep` finds lingering raspistill processes,
`sudo pkill -9 -f raspistill` runs -- also when no process was owned. -/
def stopPreviewEvents (s : AppState) (e : StopEnv) : List Event :=
  (if s.preview_process.isSome then
    (if e.termRaises then [Event.pkillSweep .preview]
     else if e.waitGraceful then [Event.termGraceful .preview]
     else if e.killWaitRaises then
       [Event.terminate .preview, Event.kill .preview, Event.pkillSweep .preview]
     else [Event.terminate .preview, Event.kill .preview])
   else []) ++
  (if e.lingering then [Event.pkillSweep .preview] else [])

/-- `stop_preview` (camera_app.py lines 240-274): the `finally` clears
`preview_process` on every path with an owned process, and line 274 sets
`preview_active = False` unconditionally. -/
def stop_preview (s : AppState) (e : StopEnv) : AppState × List Event :=
  ({ s with preview_process := none, preview_active := false },
   stopPreviewEvents s e)

/-- Environment of one `start_preview` call: the environment of the inner
`stop_preview`, and whether `subprocess.Popen` of the preview tool succeeds. -/
structure StartPreviewEnv where
  stopEnv : StopEnv
  spawnOk : Bool
deriving DecidableEq

/-- Outcome of `start_preview` as observable by the caller: either the
spawn succeeded, or the except branch ran (lines 235-238), which only
prints and returns -- nothing propagates. -/
inductive PreviewStart
  | started
  | spawnFailed
deriving DecidableEq

/-- `start_preview` (camera_app.py lines 211-238): always stops any
existing preview first (line 215), then `Popen`s the preview tool.  On
success `preview_process` is set and `preview_active := True` (lines
230-233); if `Popen` raises, the except branch leaves the state as
`stop_preview` left it (process `none`, flag `False`). -/
def start_preview (s : AppState) (e : StartPreviewEnv) :
    AppState × List Event × PreviewStart :=
  let p := stop_preview s e.stopEnv
  if e.spawnOk then
    ({ p.1 with preview_process := some (), preview_active := true },
     p.2 ++ [Event.spawn .preview], .started)
  else
    (p.1, p.2 ++ [Event.spawnFail .preview], .spawnFailed)

/-- Outcome of the blocking `subprocess.run` of the photo tool in
`take_photo` (line 306), together with the file checks of lines 316-317:
the tool completed with an exit code (and the target file then exists with
the given size, or not), the 10s bound expired (`TimeoutExpired`, line
373), the executable was missing (`FileNotFoundError`, line 375), or some
other exception was raised (line 378). -/
inductive RunOutcome
  | completed (exitCode : Int) (fileExists : Bool) (fileSizeBytes : Nat)
  | timedOut
  | toolNotFound
  | raisedOther
deriving DecidableEq

/-- Environment of one `take_photo` call: environment for the initial
`stop_preview` (line 292), the run outcome, and the environment for the
restarting `start_preview` (line 371). -/
structure PhotoEnv where
  stopEnv : StopEnv
  run : RunOutcome
  restart : StartPreviewEnv
deriving DecidableEq

/-- Classification `take_photo` reports, mirroring the printed messages:
photo saved with its size (line 318), exit code 0 but no file at the
target path (line 325), non-zero exit code (line 333), timeout (line 374),
`raspistill` missing (line 376), unexpected exception (line 379). -/
inductive PhotoResult
  | saved (sizeBytes : Nat)
  | successButNoFile
  | commandFailed (code : Int)
  | timedOut
  | toolNotFound
  | unexpectedError
deriving DecidableEq

/-- `take_photo` (camera_app.py lines 276-381).  Records `was_active`
(line 290), stops the preview if it was active (line 292), then runs the
photo tool with `timeout=10` (line 306).  When the run completes with an
exit code, the result is classified by lines 314-335 and the preview is
restarted if it was active (lines 369-371).  The restart sits inside the
`try` block before the except clauses, so on `TimeoutExpired`,
`FileNotFoundError` or any other exception control jumps to the handlers
(lines 373-381) and no restart happens. -/
def take_photo (s : AppState) (e : PhotoEnv) :
    AppState × List Event × PhotoResult :=
  let was := s.preview_active
  let p := if was then stop_preview s e.stopEnv else (s, [])
  match e.run with
  | .completed c fex fsz =>
      let res := if c = 0 then
          (if fex then PhotoResult.saved fsz else PhotoResult.successButNoFile)
        else PhotoResult.commandFailed c
      let q := if was then start_preview p.1 e.restart
        else (p.1, [], PreviewStart.started)
      (q.1, p.2 ++ Event.runOneShot .photo (some 10) :: q.2.1, res)
  | .timedOut =>
      (p.1, p.2 ++ [Event.runOneShot .photo (some 10)], .timedOut)
  | .toolNotFound =>
      (p.1, p.2 ++ [Event.spawnFail .photo], .toolNotFound)
  | .raisedOther =>
      (p.1, p.2 ++ [Event.runOneShot .photo (some 10)], .unexpectedError)

/-- Environment of one `start_video_recording` call: whether the
`pgrep -f raspivid` check of lines 398-407 finds stray video processes,
the environment for the inner `stop_preview` (line 411), whether
`subprocess.Popen` of the video tool raises (line 424), and the result of
the post-spawn `poll()` (line 430): `none` means still running, `some c`
means the process already exited with code `c`. -/
structure StartVideoEnv where
  strayVideo : Bool
  stopEnv : StopEnv
  spawnRaises : Bool
  pollExit : Option Int
deriving DecidableEq

/-- Outcome `start_video_recording` reports: the already-recording guard
fired (line 386), recording started (line 431), the process exited
immediately with the captured code (lines 434-450), or `Popen` raised
(lines 452-455). -/
inductive VideoStart
  | alreadyRecording
  | started
  | startFailed (code : Int)
  | spawnError
deriving DecidableEq

/-- `start_video_recording` (camera_app.py lines 383-455).  Returns
immediately when `self.recording` is set (lines 385-387).  Otherwise
sweeps stray raspivid processes if `pgrep` found any (lines 398-407),
stops the preview (line 411), spawns the video tool (line 424) and after
a 0.5s grace sleep polls it (line 430): still running sets
`recording = True`; already exited clears `video_process` and `recording`
and reports the captured exit code; a raising `Popen` lands in the except
branch which also clears both (lines 452-455). -/
def start_video_recording (s : AppState) (e : StartVideoEnv) :
    AppState × List Event × VideoStart :=
  if s.recording then (s, [], .alreadyRecording)
  else
    let ev0 := if e.strayVideo then [Event.pkillSweep .video] else []
    let p := stop_preview s e.stopEnv
    if e.spawnRaises then
      ({ p.1 with video_process := none, recording := false },
       ev0 ++ p.2 ++ [Event.spawnFail .video], .spawnError)
    else
      match e.pollExit with
      | none =>
          ({ p.1 with video_process := some (), recording := true },
           ev0 ++ p.2 ++ [Event.spawn .video], .started)
      | some c =>
          ({ p.1 with video_process := none, recording := false },
           ev0 ++ p.2 ++ [Event.spawn .video, Event.exited .video],
           .startFailed c)

/-- Environment of one `stop_video_recording` call: whether the try block
raises (modelled at `terminate()`, line 468), whether the 5s grace `wait`
returned in time (line 471), whether the `pgrep -f raspivid` cleanup check
finds remaining processes (lines 500-507), and the environment of the
restarting `start_preview` (line 515). -/
structure StopVideoEnv where
  termRaises : Bool
  waitGraceful : Bool
  strayVideo : Bool
  restart : StartPreviewEnv
deriving DecidableEq

/-- Outcome `stop_video_recording` reports: the not-recording guard fired
(lines 459-461), the recording was stopped normally, or the except branch
ran (lines 517-526). -/
inductive VideoStop
  | notRecording
  | stopped
  | stoppedWithError
deriving DecidableEq

/-- `stop_video_recording` (camera_app.py lines 457-526).  Returns
immediately when not recording or no video process (lines 459-461).  On
the normal path: `terminate()`, graceful `wait(5)` or `kill()` on timeout
(lines 466-481), optional stray-raspivid sweep (lines 500-507), clears
`video_process` and `recording` (lines 509-510) and restarts the preview
(line 515).  On an exception the except branch clears both and sweeps
raspivid, with no preview restart (lines 517-526). -/
def stop_video_recording (s : AppState) (e : StopVideoEnv) :
    AppState × List Event × VideoStop :=
  if !s.recording || s.video_process.isNone then (s, [], .notRecording)
  else if e.termRaises then
    ({ s with video_process := none, recording := false },
     [Event.pkillSweep .video], .stoppedWithError)
  else
    let evTerm := if e.waitGraceful then [Event.termGraceful .video]
      else [Event.terminate .video, Event.kill .video]
    let evStray := if e.strayVideo then [Event.pkillSweep .video] else []
    let s1 : AppState := { s with video_process := none, recording := false }
    let q := start_preview s1 e.restart
    (q.1, evTerm ++ evStray ++ q.2.1, .stopped)

/-- Coherence between a controller state and the table of live external
processes: the owned handles account exactly for the live preview/video
processes, no one-shot photo process survives a call boundary, and the
two Boolean flags agree with the handles. -/
def coherent (s : AppState) (alive : List ProcKind) : Prop :=
  countK .preview alive = (if s.preview_process.isSome then 1 else 0) ∧
  countK .video alive = (if s.video_process.isSome then 1 else 0) ∧
  countK .photo alive = 0 ∧
  s.preview_active = s.preview_process.isSome ∧
  s.recording = s.video_process.isSome

theorem countK_removeOne_self (k : ProcKind) (l : List ProcKind) :
    countK k (removeOne k l) = countK k l - 1 := by
  induction l with
  | nil => rfl
  | cons x xs ih =>
    by_cases hx : x = k
    · simp [removeOne, countK, hx]
    · simp [removeOne, countK, hx, ih]

theorem countK_removeOne_ne (j k : ProcKind) (h : j ≠ k) (l : List ProcKind) :
    countK j (removeOne k l) = countK j l := by
  induction l with
  | nil => rfl
  | cons x xs ih =>
    by_cases hx : x = k
    · subst hx; simp [removeOne, countK, Ne.symm h]
    · simp [removeOne, countK, hx, ih]

theorem countK_removeAll_self (k : ProcKind) (l : List ProcKind) :
    countK k (removeAll k l) = 0 := by
  induction l with
  | nil => rfl
  | cons x xs ih =>
    by_cases hx : x = k
    · simp [removeAll, hx, ih]
    · simp [removeAll, countK, hx, ih]

theorem countK_removeAll_ne (j k : ProcKind) (h : j ≠ k) (l : List ProcKind) :
    countK j (removeAll k l) = countK j l := by
  induction l with
  | nil => rfl
  | cons x xs ih =>
    by_cases hx : x = k
    · subst hx; simp [removeAll, countK, Ne.symm h, ih]
    · simp [removeAll, countK, hx, ih]

theorem applyEvents_append (alive : List ProcKind) (a b : List Event) :
    applyEvents alive (a ++ b) = applyEvents (applyEvents alive a) b := by
  simp [applyEvents, List.foldl_append]

theorem countK_applyEvent_ne (j : ProcKind) (ev : Event)
    (alive : List ProcKind) (h : ¬ ev.kind = j) :
    countK j (applyEvent alive ev) = countK j alive := by
  cases ev with
  | spawn k => simp [Event.kind] at h; simp [applyEvent, countK, h]
  | termGraceful k =>
    simp [Event.kind] at h
    exact countK_removeOne_ne j k (Ne.symm h) alive
  | terminate k => rfl
  | kill k =>
    simp [Event.kind] at h
    exact countK_removeOne_ne j k (Ne.symm h) alive
  | pkillSweep k =>
    simp [Event.kind] at h
    exact countK_removeAll_ne j k (Ne.symm h) alive
  | exited k =>
    simp [Event.kind] at h
    exact countK_removeOne_ne j k (Ne.symm h) alive
  | runOneShot k t => rfl
  | spawnFail k => rfl

theorem countK_applyEvents_ne (j : ProcKind) (evs : List Event)
    (h : ∀ ev ∈ evs, ¬ ev.kind = j) :
    ∀ alive : List ProcKind, countK j (applyEvents alive evs) = countK j alive := by
  induction evs with
  | nil => intro alive; rfl
  | cons ev rest ih =>
    intro alive
    have h1 : ¬ ev.kind = j := h ev (List.mem_cons_self ev rest)
    have h2 : ∀ x ∈ rest, ¬ x.kind = j := fun x hx => h x (List.mem_cons_of_mem ev hx)
    calc countK j (applyEvents (applyEvent alive ev) rest)
        = countK j (applyEvent alive ev) := ih h2 (applyEvent alive ev)
      _ = countK j alive := countK_applyEvent_ne j ev alive h1

theorem stopPreviewEvents_kind (s : AppState) (e : StopEnv) :
    ∀ ev ∈ stopPreviewEvents s e, ev.kind = ProcKind.preview := by
  intro ev hev
  unfold stopPreviewEvents at hev
  split_ifs at hev <;> simp at hev <;>
    rcases hev with h | h | h | h <;> simp_all [Event.kind]

theorem countK_stopPreviewEvents_ne (j : ProcKind) (h : ¬ j = ProcKind.preview)
    (s : AppState) (e : StopEnv) (alive : List ProcKind) :
    countK j (applyEvents alive (stopPreviewEvents s e)) = countK j alive := by
  refine countK_applyEvents_ne j _ ?_ alive
  intro ev hev
  rw [stopPreviewEvents_kind s e ev hev]
  exact fun hk => h hk.symm

theorem countK_preview_stopPreviewEvents (s : AppState) (e : StopEnv)
    (alive : List ProcKind)
    (h : countK .preview alive = (if s.preview_process.isSome then 1 else 0)) :
    countK .preview (applyEvents alive (stopPreviewEvents s e)) = 0 := by
  unfold stopPreviewEvents
  cases hp : s.preview_process <;> simp [hp] at h <;>
    rcases e with ⟨tr, wg, kw, lg⟩ <;> cases tr <;> cases wg <;> cases kw <;>
      cases lg <;>
    simp [applyEvents, applyEvent, countK_removeOne_self,
      countK_removeAll_self, h]

theorem applyEvents_nil (alive : List ProcKind) : applyEvents alive [] = alive :=
  rfl

theorem applyEvents_cons (alive : List ProcKind) (ev : Event) (evs : List Event) :
    applyEvents alive (ev :: evs) = applyEvents (applyEvent alive ev) evs :=
  rfl

theorem stop_preview_coherent (s : AppState) (e : StopEnv)
    (alive : List ProcKind) (h : coherent s alive) :
    coherent (stop_preview s e).1 (applyEvents alive (stop_preview s e).2) := by
  obtain ⟨hp, hv, hph, ha, hr⟩ := h
  refine ⟨?_, ?_, ?_, ?_, ?_⟩
  · simpa [stop_preview] using countK_preview_stopPreviewEvents s e alive hp
  · simpa [stop_preview] using
      (countK_stopPreviewEvents_ne .video (by simp) s e alive).trans hv
  · simpa [stop_preview] using
      (countK_stopPreviewEvents_ne .photo (by simp) s e alive).trans hph
  · simp [stop_preview]
  · simpa [stop_preview] using hr

theorem start_preview_coherent (s : AppState) (e : StartPreviewEnv)
    (alive : List ProcKind) (h : coherent s alive) :
    coherent (start_preview s e).1
      (applyEvents alive (start_preview s e).2.1) := by
  obtain ⟨hp1, hv1, hph1, ha1, hr1⟩ := stop_preview_coherent s e.stopEnv alive h
  by_cases hs : e.spawnOk <;>
    simp only [start_preview, hs, if_true, if_false, Bool.false_eq_true,
      applyEvents_append] <;>
    refine ⟨?_, ?_, ?_, ?_, ?_⟩
  · simpa [applyEvents, applyEvent, countK, stop_preview] using hp1
  · simpa [applyEvents, applyEvent, countK, stop_preview] using hv1
  · simpa [applyEvents, applyEvent, countK, stop_preview] using hph1
  · simp [applyEvents, applyEvent]
  · simpa [applyEvents, applyEvent, stop_preview] using hr1
  · simpa [applyEvents, applyEvent, countK, stop_preview] using hp1
  · simpa [applyEvents, applyEvent, countK, stop_preview] using hv1
  · simpa [applyEvents, applyEvent, countK, stop_preview] using hph1
  · simp [applyEvents, applyEvent, stop_preview]
  · simpa [applyEvents, applyEvent, stop_preview] using hr1

theorem take_photo_coherent (s : AppState) (e : PhotoEnv)
    (alive : List ProcKind) (h : coherent s alive) :
    coherent (take_photo s e).1 (applyEvents alive (take_photo s e).2.1) := by
  have hstop : coherent
      ((if s.preview_active then stop_preview s e.stopEnv else (s, [])).1)
      (applyEvents alive
        ((if s.preview_active then stop_preview s e.stopEnv else (s, [])).2)) := by
    by_cases hw : s.preview_active
    · simpa [hw] using stop_preview_coherent s e.stopEnv alive h
    · simpa [hw, applyEvents] using h
  cases hrn : e.run with
  | completed c fex fsz =>
    by_cases hw : s.preview_active
    · have := start_preview_coherent
        (stop_preview s e.stopEnv).1 e.restart
        (applyEvents alive (stop_preview s e.stopEnv).2)
        (by simpa [hw] using hstop)
      simpa [take_photo, hrn, hw, applyEvents_append, applyEvents,
        applyEvent] using this
    · simpa [take_photo, hrn, hw, applyEvents_append, applyEvents,
        applyEvent] using h
  | timedOut =>
    simpa [take_photo, hrn, applyEvents_append, applyEvents, applyEvent]
      using hstop
  | toolNotFound =>
    simpa [take_photo, hrn, applyEvents_append, applyEvents, applyEvent]
      using hstop
  | raisedOther =>
    simpa [take_photo, hrn, applyEvents_append, applyEvents, applyEvent]
      using hstop

theorem start_video_coherent (s : AppState) (e : StartVideoEnv)
    (alive : List ProcKind) (h : coherent s alive) :
    coherent (start_video_recording s e).1
      (applyEvents alive (start_video_recording s e).2.1) := by
  by_cases hrec : s.recording
  · simpa [start_video_recording, hrec, applyEvents] using h
  · obtain ⟨hp, hv, hph, ha, hr⟩ := h
    have hvn : s.video_process = none := by
      cases hvp : s.video_process with
      | none => rfl
      | some u =>
        rw [hvp] at hr
        simp at hr
        exact absurd hr hrec
    have hrf : s.recording = false := by
      cases hrb : s.recording
      · rfl
      · exact absurd hrb hrec
    have hp1 : countK .preview (applyEvents (applyEvents alive
        (if e.strayVideo then [Event.pkillSweep ProcKind.video] else []))
        (stopPreviewEvents s e.stopEnv)) = 0 := by
      apply countK_preview_stopPreviewEvents
      by_cases hsv : e.strayVideo <;>
        simp [hsv, applyEvents, applyEvent,
          countK_removeAll_ne ProcKind.preview ProcKind.video (by simp), hp]
    have hv1 : countK .video (applyEvents (applyEvents alive
        (if e.strayVideo then [Event.pkillSweep ProcKind.video] else []))
        (stopPreviewEvents s e.stopEnv)) = 0 := by
      rw [countK_stopPreviewEvents_ne ProcKind.video (by simp) s e.stopEnv]
      by_cases hsv : e.strayVideo <;>
        simp [hsv, applyEvents, applyEvent, countK_removeAll_self, hv, hvn]
    have hph1 : countK .photo (applyEvents (applyEvents alive
        (if e.strayVideo then [Event.pkillSweep ProcKind.video] else []))
        (stopPreviewEvents s e.stopEnv)) = 0 := by
      rw [countK_stopPreviewEvents_ne ProcKind.photo (by simp) s e.stopEnv]
      by_cases hsv : e.strayVideo <;>
        simp [hsv, applyEvents, applyEvent,
          countK_removeAll_ne ProcKind.photo ProcKind.video (by simp), hph]
    by_cases hsp : e.spawnRaises
    · refine ⟨?_, ?_, ?_, ?_, ?_⟩ <;>
        simp [start_video_recording, hrec, hsp, stop_preview,
          applyEvents_append, applyEvents_cons, applyEvents_nil, applyEvent,
          countK, hp1, hv1, hph1, hvn, hrf]
    · cases hpe : e.pollExit with
      | none =>
        refine ⟨?_, ?_, ?_, ?_, ?_⟩ <;>
          simp [start_video_recording, hrec, hsp, hpe, stop_preview,
            applyEvents_append, applyEvents_cons, applyEvents_nil, applyEvent,
            countK, removeOne, hp1, hv1, hph1, hvn, hrf]
      | some c =>
        refine ⟨?_, ?_, ?_, ?_, ?_⟩ <;>
          simp [start_video_recording, hrec, hsp, hpe, stop_preview,
            applyEvents_append, applyEvents_cons, applyEvents_nil, applyEvent,
            countK, removeOne, hp1, hv1, hph1, hvn, hrf]

theorem stop_video_coherent (s : AppState) (e : StopVideoEnv)
    (alive : List ProcKind) (h : coherent s alive) :
    coherent (stop_video_recording s e).1
      (applyEvents alive (stop_video_recording s e).2.1) := by
  obtain ⟨hp, hv, hph, ha, hr⟩ := h
  by_cases hg : (!s.recording || s.video_process.isNone) = true
  · simpa [stop_video_recording, hg, applyEvents] using ⟨hp, hv, hph, ha, hr⟩
  · have hrec : s.recording = true := by
      cases hrb : s.recording
      · rw [hrb] at hg; simp at hg
      · rfl
    have hvs : s.video_process = some () := by
      cases hvp : s.video_process with
      | none => rw [hvp] at hg; simp at hg
      | some u => cases u; rfl
    by_cases htr : e.termRaises
    · refine ⟨?_, ?_, ?_, ?_, ?_⟩ <;>
        simp [stop_video_recording, hg, htr, applyEvents_cons,
          applyEvents_nil, applyEvent, countK_removeAll_self,
          countK_removeAll_ne ProcKind.preview ProcKind.video (by simp),
          countK_removeAll_ne ProcKind.photo ProcKind.video (by simp),
          hp, hph, ha]
    · have hA2 : coherent { s with video_process := none, recording := false }
          (applyEvents alive
            ((if e.waitGraceful then [Event.termGraceful ProcKind.video]
              else [Event.terminate ProcKind.video,
                Event.kill ProcKind.video]) ++
             (if e.strayVideo then [Event.pkillSweep ProcKind.video]
              else []))) := by
        refine ⟨?_, ?_, ?_, ?_, ?_⟩ <;>
          by_cases hwg : e.waitGraceful <;> by_cases hsv : e.strayVideo <;>
            simp [hwg, hsv, applyEvents_append, applyEvents_cons,
              applyEvents_nil, applyEvent, countK_removeOne_self,
              countK_removeAll_self,
              countK_removeOne_ne ProcKind.preview ProcKind.video (by simp),
              countK_removeOne_ne ProcKind.photo ProcKind.video (by simp),
              countK_removeAll_ne ProcKind.preview ProcKind.video (by simp),
              countK_removeAll_ne ProcKind.photo ProcKind.video (by simp),
              hp, hv, hph, ha, hvs]
      have hfin := start_preview_coherent
        { s with video_process := none, recording := false } e.restart _ hA2
      simp only [applyEvents_append] at hfin
      simpa [stop_video_recording, hg, htr, applyEvents_append] using hfin

/-- States of the controller, paired with the table of live external
camera-tool processes, reachable from `__init__` by any sequence of the
five lifecycle operations under arbitrary environments. -/
inductive Reachable : AppState → List ProcKind → Prop
  | init : Reachable initState []
  | stepStartPreview (s : AppState) (alive : List ProcKind)
      (e : StartPreviewEnv) : Reachable s alive →
      Reachable (start_preview s e).1
        (applyEvents alive (start_preview s e).2.1)
  | stepStopPreview (s : AppState) (alive : List ProcKind) (e : StopEnv) :
      Reachable s alive →
      Reachable (stop_preview s e).1 (applyEvents alive (stop_preview s e).2)
  | stepTakePhoto (s : AppState) (alive : List ProcKind) (e : PhotoEnv) :
      Reachable s alive →
      Reachable (take_photo s e).1 (applyEvents alive (take_photo s e).2.1)
  | stepStartVideo (s : AppState) (alive : List ProcKind)
      (e : StartVideoEnv) : Reachable s alive →
      Reachable (start_video_recording s e).1
        (applyEvents alive (start_video_recording s e).2.1)
  | stepStopVideo (s : AppState) (alive : List ProcKind)
      (e : StopVideoEnv) : Reachable s alive →
      Reachable (stop_video_recording s e).1
        (applyEvents alive (stop_video_recording s e).2.1)

theorem coherent_init : coherent initState [] := by
  refine ⟨rfl, rfl, rfl, rfl, rfl⟩

/-- Every reachable configuration is coherent: the owned handles account
exactly for the live processes and the flags agree with the handles. -/
theorem reachable_coherent (s : AppState) (alive : List ProcKind)
    (h : Reachable s alive) : coherent s alive := by
  induction h with
  | init => exact coherent_init
  | stepStartPreview s alive e _ ih => exact start_preview_coherent s e alive ih
  | stepStopPreview s alive e _ ih => exact stop_preview_coherent s e alive ih
  | stepTakePhoto s alive e _ ih => exact take_photo_coherent s e alive ih
  | stepStartVideo s alive e _ ih => exact start_video_coherent s e alive ih
  | stepStopVideo s alive e _ ih => exact stop_video_coherent s e alive ih

/-- Stop environment where everything behaves: terminate works, the grace
wait returns in time, no lingering processes are found. -/
def benignStop : StopEnv :=
  { termRaises := false, waitGraceful := true, killWaitRaises := false,
    lingering := false }

/-- Stop environment where the trailing pgrep check reports lingering
preview-tool processes. -/
def lingerStop : StopEnv :=
  { termRaises := false, waitGraceful := true, killWaitRaises := false,
    lingering := true }

/-- A state with an active preview and nothing else. -/
def sPreviewOn : AppState :=
  { preview_process := some (), video_process := none, recording := false,
    preview_active := true }

/-- A state with a video recording in progress and no preview. -/
def sRecordingOn : AppState :=
  { preview_process := none, video_process := some (), recording := true,
    preview_active := false }

/-- Photo environment where the 10s run bound expires. -/
def ePhotoTimeout : PhotoEnv :=
  { stopEnv := benignStop, run := RunOutcome.timedOut,
    restart := { stopEnv := benignStop, spawnOk := true } }

/-- Photo environment where the tool exits 0 and the target file exists
but is empty (0 bytes). -/
def ePhotoEmptyFile : PhotoEnv :=
  { stopEnv := benignStop, run := RunOutcome.completed 0 true 0,
    restart := { stopEnv := benignStop, spawnOk := true } }

/-- Photo environment for a fully successful capture. -/
def ePhotoOk : PhotoEnv :=
  { stopEnv := benignStop, run := RunOutcome.completed 0 true 123456,
    restart := { stopEnv := benignStop, spawnOk := true } }

/-- Video-start environment where the spawn works and the post-spawn poll
sees the process still running. -/
def eStartVideoOk : StartVideoEnv :=
  { strayVideo := false, stopEnv := benignStop, spawnRaises := false,
    pollExit := none }

/-- Video-start environment where the spawned process dies immediately
with exit code 64. -/
def eStartVideoDies : StartVideoEnv :=
  { strayVideo := false, stopEnv := benignStop, spawnRaises := false,
    pollExit := some 64 }

/-- Video-stop environment where everything behaves. -/
def eStopVideoOk : StopVideoEnv :=
  { termRaises := false, waitGraceful := true, strayVideo := false,
    restart := { stopEnv := benignStop, spawnOk := true } }

/-- Claim C3: if `start_video_recording` is called while a recording is
in progress, it reports AlreadyRecording, emits no OS events (so spawns
no process), and returns the state unchanged. -/
theorem start_video_already_recording (s : AppState) (e : StartVideoEnv)
    (h : s.recording = true) :
    start_video_recording s e = (s, [], VideoStart.alreadyRecording) := by
  simp [start_video_recording, h]

/-- Witness for C3: from the concrete recording state, a second start
reports AlreadyRecording with an empty event trace. -/
theorem start_video_already_recording_witness :
    sRecordingOn.recording = true ∧
    start_video_recording sRecordingOn eStartVideoOk
      = (sRecordingOn, [], VideoStart.alreadyRecording) :=
  ⟨rfl, start_video_already_recording sRecordingOn eStartVideoOk rfl⟩

/-- Claim C4: if `stop_video_recording` is called with no video process,
it reports NotRecording, emits no OS events, and returns the state
unchanged. -/
theorem stop_video_not_recording (s : AppState) (e : StopVideoEnv)
    (h : s.video_process = none) :
    stop_video_recording s e = (s, [], VideoStop.notRecording) := by
  simp [stop_video_recording, h]

/-- Witness for C4: from the state with an active preview and no video
process, stop reports NotRecording and changes nothing. -/
theorem stop_video_not_recording_witness :
    sPreviewOn.video_process = none ∧
    stop_video_recording sPreviewOn eStopVideoOk
      = (sPreviewOn, [], VideoStop.notRecording) :=
  ⟨rfl, stop_video_not_recording sPreviewOn eStopVideoOk rfl⟩

/-- Claim C6: when the video tool is spawned and the post-spawn poll sees
that the process already exited, the call reports the captured exit code
as a start failure and retains neither a video handle nor the recording
flag. -/
theorem start_video_immediate_exit (s : AppState) (e : StartVideoEnv)
    (c : Int) (hrec : s.recording = false) (hsp : e.spawnRaises = false)
    (hpoll : e.pollExit = some c) :
    (start_video_recording s e).2.2 = VideoStart.startFailed c ∧
    (start_video_recording s e).1.video_process = none ∧
    (start_video_recording s e).1.recording = false := by
  refine ⟨?_, ?_, ?_⟩ <;> simp [start_video_recording, hrec, hsp, hpoll]

/-- Witness for C6: a spawn that dies immediately with code 64 is
reported as startFailed 64 and sets no recording state. -/
theorem start_video_immediate_exit_witness :
    initState.recording = false ∧ eStartVideoDies.spawnRaises = false ∧
    eStartVideoDies.pollExit = some 64 ∧
    ((start_video_recording initState eStartVideoDies).2.2
        = VideoStart.startFailed 64 ∧
      (start_video_recording initState eStartVideoDies).1.video_process
        = none ∧
      (start_video_recording initState eStartVideoDies).1.recording
        = false) :=
  ⟨rfl, rfl, rfl, start_video_immediate_exit initState eStartVideoDies 64
    rfl rfl rfl⟩

/-- Counterexample to claim C1: with the preview active, a photo capture
that times out leaves the preview stopped -- the restart on lines 369-371
sits inside the `try` block and is skipped when `subprocess.run` raises
`TimeoutExpired`. -/
theorem take_photo_timeout_counterexample :
    sPreviewOn.preview_active = true ∧
    (take_photo sPreviewOn ePhotoTimeout).2.2 = PhotoResult.timedOut ∧
    (take_photo sPreviewOn ePhotoTimeout).1.preview_active = false := by
  refine ⟨rfl, ?_, ?_⟩ <;> decide

/-- Claim C1 (amended): if the preview was Stopped before `take_photo`,
the state is returned unchanged (so it stays Stopped); if it was Active
and the photo tool terminated with an exit code (success or failure) and
the restarting spawn succeeded, it is Active again; but when the run
times out or the tool is missing or an unexpected exception is raised,
the preview is left Stopped, because the restart is skipped. -/
theorem take_photo_preview_restore (s : AppState) (e : PhotoEnv) :
    (s.preview_active = false → (take_photo s e).1 = s) ∧
    (∀ c fex fsz, e.run = RunOutcome.completed c fex fsz →
      e.restart.spawnOk = true →
      (take_photo s e).1.preview_active = s.preview_active) ∧
    ((e.run = RunOutcome.timedOut ∨ e.run = RunOutcome.toolNotFound ∨
        e.run = RunOutcome.raisedOther) →
      (take_photo s e).1.preview_active = false) := by
  refine ⟨?_, ?_, ?_⟩
  · intro hw
    cases hrun : e.run <;> simp [take_photo, hrun, hw]
  · intro c fex fsz hrun hok
    by_cases hw : s.preview_active <;>
      simp [take_photo, hrun, hw, start_preview, stop_preview, hok]
  · rintro (hrun | hrun | hrun) <;> by_cases hw : s.preview_active <;>
      simp [take_photo, hrun, hw, stop_preview]

/-- Witness for C1 (amended): from the stopped state a successful capture
leaves the state unchanged, and from the active state a completed run
with a successful respawn leaves the preview active. -/
theorem take_photo_preview_restore_witness :
    (take_photo initState ePhotoOk).1 = initState ∧
    (take_photo sPreviewOn ePhotoOk).1.preview_active
      = sPreviewOn.preview_active :=
  ⟨(take_photo_preview_restore initState ePhotoOk).1 rfl,
   (take_photo_preview_restore sPreviewOn ePhotoOk).2.1 0 true 123456
     rfl rfl⟩

/-- Counterexample to claim C2: a capture whose tool exits 0 with an
existing but empty (0-byte) output file is reported as a success
(`saved 0`), not as a verification failure -- line 316 checks only
`os.path.exists`, never the size. -/
theorem take_photo_empty_file_counterexample :
    (take_photo initState ePhotoEmptyFile).2.2 = PhotoResult.saved 0 ∧
    PhotoResult.saved 0 ≠ PhotoResult.successButNoFile := by
  refine ⟨?_, ?_⟩ <;> decide

/-- Claim C2 (amended): on exit code 0 with the output file missing, the
result is the verification failure `successButNoFile`, never a success;
but an existing file is reported as `saved` with its size even when the
size is 0 -- existence is the only check.  A `saved` result implies exit
code 0 and an existing file. -/
theorem take_photo_verification (s : AppState) (e : PhotoEnv)
    (c : Int) (fex : Bool) (fsz : Nat)
    (hrun : e.run = RunOutcome.completed c fex fsz) :
    (c = 0 → fex = false →
      (take_photo s e).2.2 = PhotoResult.successButNoFile) ∧
    (c = 0 → fex = true → (take_photo s e).2.2 = PhotoResult.saved fsz) ∧
    (∀ n, (take_photo s e).2.2 = PhotoResult.saved n →
      c = 0 ∧ fex = true ∧ n = fsz) := by
  refine ⟨?_, ?_, ?_⟩
  · intro hc hf
    by_cases hw : s.preview_active <;>
      simp [take_photo, hrun, hw, hc, hf]
  · intro hc hf
    by_cases hw : s.preview_active <;>
      simp [take_photo, hrun, hw, hc, hf]
  · intro n hres
    by_cases hw : s.preview_active <;>
      by_cases hc : c = 0 <;> cases hf : fex <;>
        simp [take_photo, hrun, hw, hc, hf] at hres <;> simp_all

/-- Witness for C2 (amended): exit 0 with no file yields the verification
failure; exit 0 with an existing file yields saved. -/
theorem take_photo_verification_witness :
    (take_photo sPreviewOn
      { stopEnv := benignStop, run := RunOutcome.completed 0 false 0,
        restart := { stopEnv := benignStop, spawnOk := true } }).2.2
      = PhotoResult.successButNoFile ∧
    (take_photo initState ePhotoOk).2.2 = PhotoResult.saved 123456 :=
  ⟨(take_photo_verification sPreviewOn
      { stopEnv := benignStop, run := RunOutcome.completed 0 false 0,
        restart := { stopEnv := benignStop, spawnOk := true } }
      0 false 0 rfl).1 rfl rfl,
   (take_photo_verification initState ePhotoOk 0 true 123456 rfl).2.1
     rfl rfl⟩

/-- Counterexample to claim C5: calling `stop_preview` with no owned
process still performs an OS signal call when the trailing
`pgrep -f raspistill` check reports lingering processes -- lines 264-271
run `sudo pkill -9 -f raspistill` regardless of whether a handle was
owned. -/
theorem stop_preview_lingering_counterexample :
    initState.preview_process = none ∧
    (stop_preview initState lingerStop).2
      = [Event.pkillSweep ProcKind.preview] ∧
    Event.isSignal (Event.pkillSweep ProcKind.preview) = true := by
  refine ⟨rfl, ?_, ?_⟩ <;> decide

/-- Claim C5 (amended): stop on an already-stopped handle (no owned
process) sends no terminate or kill to any owned process -- any event it
emits is the orphan sweep, and when the process-table check reports no
lingering tool instances it emits nothing at all; the only state change
is clearing the active flag, and stop is idempotent on the state. -/
theorem stop_preview_stopped_handle (s : AppState) (e : StopEnv)
    (h : s.preview_process = none) :
    (stop_preview s e).1 = { s with preview_active := false } ∧
    (∀ ev ∈ (stop_preview s e).2, ev = Event.pkillSweep ProcKind.preview) ∧
    (e.lingering = false → (stop_preview s e).2 = []) ∧
    (∀ e2 : StopEnv,
      (stop_preview (stop_preview s e).1 e2).1 = (stop_preview s e).1) := by
  refine ⟨?_, ?_, ?_, ?_⟩
  · simp [stop_preview, h]
  · intro ev hev
    simp [stop_preview, stopPreviewEvents, h] at hev
    by_cases hl : e.lingering <;> simp [hl] at hev
    exact hev
  · intro hl
    simp [stop_preview, stopPreviewEvents, h, hl]
  · intro e2
    simp [stop_preview]

/-- Witness for C5 (amended): from the initial state (no handle), stop in
a benign environment changes only the (already false) active flag and
emits no events. -/
theorem stop_preview_stopped_handle_witness :
    (stop_preview initState benignStop).1
      = { initState with preview_active := false } ∧
    (stop_preview initState benignStop).2 = [] :=
  ⟨(stop_preview_stopped_handle initState benignStop rfl).1,
   (stop_preview_stopped_handle initState benignStop rfl).2.2.1 rfl⟩

/-- Claim C7: if the spawn of the preview tool fails, the preview ends
Stopped (flag false, no handle) and the failure is surfaced as the
returned outcome, with no exception; and `start_preview` always stops any
existing preview before the spawn: the trace is a stopping phase after
which no preview process is live, followed by the spawn. -/
theorem start_preview_spawn_failure (s : AppState) (e : StartPreviewEnv)
    (alive : List ProcKind) (h : coherent s alive) :
    (e.spawnOk = false →
      (start_preview s e).1.preview_active = false ∧
      (start_preview s e).1.preview_process = none ∧
      (start_preview s e).2.2 = PreviewStart.spawnFailed) ∧
    (e.spawnOk = true →
      (start_preview s e).2.1
        = stopPreviewEvents s e.stopEnv ++ [Event.spawn ProcKind.preview] ∧
      countK ProcKind.preview
        (applyEvents alive (stopPreviewEvents s e.stopEnv)) = 0) := by
  refine ⟨?_, ?_⟩
  · intro hok
    refine ⟨?_, ?_, ?_⟩ <;> simp [start_preview, stop_preview, hok]
  · intro hok
    refine ⟨by simp [start_preview, stop_preview, hok], ?_⟩
    exact countK_preview_stopPreviewEvents s e.stopEnv alive h.1

/-- Witness for C7: from the active-preview state (one live preview
process), a failing spawn ends Stopped, and a succeeding spawn is
preceded by a stopping phase that leaves zero live preview processes. -/
theorem start_preview_spawn_failure_witness :
    ((start_preview sPreviewOn
        { stopEnv := benignStop, spawnOk := false }).1.preview_active
      = false ∧
     (start_preview sPreviewOn
        { stopEnv := benignStop, spawnOk := false }).1.preview_process
      = none ∧
     (start_preview sPreviewOn
        { stopEnv := benignStop, spawnOk := false }).2.2
      = PreviewStart.spawnFailed) ∧
    countK ProcKind.preview
      (applyEvents [ProcKind.preview]
        (stopPreviewEvents sPreviewOn benignStop)) = 0 :=
  ⟨(start_preview_spawn_failure sPreviewOn
      { stopEnv := benignStop, spawnOk := false } [ProcKind.preview]
      ⟨rfl, rfl, rfl, rfl, rfl⟩).1 rfl,
   ((start_preview_spawn_failure sPreviewOn
      { stopEnv := benignStop, spawnOk := true } [ProcKind.preview]
      ⟨rfl, rfl, rfl, rfl, rfl⟩).2 rfl).2⟩

/-- No element of a preview-stop trace is a one-shot run. -/
theorem stopPreviewEvents_no_run (s : AppState) (e : StopEnv)
    (k : ProcKind) (t : Option Nat) :
    Event.runOneShot k t ∉ stopPreviewEvents s e := by
  intro hmem
  unfold stopPreviewEvents at hmem
  split_ifs at hmem <;> simp_all

/-- No element of a preview-start trace is a one-shot run. -/
theorem start_preview_no_run (s : AppState) (e : StartPreviewEnv)
    (k : ProcKind) (t : Option Nat) :
    Event.runOneShot k t ∉ (start_preview s e).2.1 := by
  intro hmem
  by_cases hok : e.spawnOk <;>
    simp [start_preview, stop_preview, hok] at hmem <;>
    exact stopPreviewEvents_no_run s e.stopEnv k t hmem

/-- Claim C8: every invocation of the photo tool in a `take_photo` trace
carries the 10-second timeout bound, and when the bound expires the
result is the timeout classification, never a success. -/
theorem take_photo_timeout_bound (s : AppState) (e : PhotoEnv) :
    (∀ k t, Event.runOneShot k t ∈ (take_photo s e).2.1 → t = some 10) ∧
    (e.run = RunOutcome.timedOut →
      (take_photo s e).2.2 = PhotoResult.timedOut ∧
      ∀ n, (take_photo s e).2.2 ≠ PhotoResult.saved n) := by
  refine ⟨?_, ?_⟩
  · intro k t hmem
    cases hrun : e.run <;> by_cases hw : s.preview_active <;>
      simp [take_photo, hrun, hw, stop_preview] at hmem
    all_goals
      first
        | exact hmem.2
        | exact absurd hmem (stopPreviewEvents_no_run s e.stopEnv k t)
        | (rcases hmem with hmem | hmem | hmem
           · exact absurd hmem (stopPreviewEvents_no_run s e.stopEnv k t)
           · exact hmem.2
           · exact absurd hmem
               (start_preview_no_run (stop_preview s e.stopEnv).1
                 e.restart k t))
        | (rcases hmem with hmem | hmem
           · exact absurd hmem (stopPreviewEvents_no_run s e.stopEnv k t)
           · exact hmem.2)
  · intro hrun
    by_cases hw : s.preview_active <;>
      simp [take_photo, hrun, hw]

/-- Witness for C8: a timing-out capture from the active-preview state
reports the timeout classification and is not a success. -/
theorem take_photo_timeout_bound_witness :
    (take_photo sPreviewOn ePhotoTimeout).2.2 = PhotoResult.timedOut ∧
    ∀ n, (take_photo sPreviewOn ePhotoTimeout).2.2 ≠ PhotoResult.saved n :=
  (take_photo_timeout_bound sPreviewOn ePhotoTimeout).2 rfl

/-- Claim C9: in every reachable configuration at most one preview and at
most one video process are live; and whenever `take_photo` actually
invokes the photo tool, the trace decomposes into a phase at whose end no
preview process is live, followed by the one-shot run -- an active
preview is suspended before the photo tool runs. -/
theorem lifecycle_exclusive (s : AppState) (alive : List ProcKind)
    (h : Reachable s alive) :
    (countK ProcKind.preview alive ≤ 1 ∧
      countK ProcKind.video alive ≤ 1) ∧
    (∀ e : PhotoEnv, e.run ≠ RunOutcome.toolNotFound →
      ∃ evs rest, (take_photo s e).2.1
          = evs ++ Event.runOneShot ProcKind.photo (some 10) :: rest ∧
        countK ProcKind.preview (applyEvents alive evs) = 0) := by
  obtain ⟨hp, hv, hph, ha, hr⟩ := reachable_coherent s alive h
  have hzero : ∀ e0 : StopEnv, s.preview_active = true →
      countK ProcKind.preview
        (applyEvents alive (stopPreviewEvents s e0)) = 0 :=
    fun e0 _ => countK_preview_stopPreviewEvents s e0 alive hp
  have hzero2 : s.preview_active = false →
      countK ProcKind.preview (applyEvents alive []) = 0 := by
    intro hw
    rw [ha] at hw
    simp [applyEvents, hp, hw]
  refine ⟨⟨?_, ?_⟩, ?_⟩
  · rw [hp]; split <;> omega
  · rw [hv]; split <;> omega
  · intro e hne
    cases hrun : e.run with
    | completed c fex fsz =>
      by_cases hw : s.preview_active
      · exact ⟨stopPreviewEvents s e.stopEnv,
          (start_preview (stop_preview s e.stopEnv).1 e.restart).2.1,
          by simp [take_photo, hrun, hw, stop_preview], hzero e.stopEnv hw⟩
      · exact ⟨[], [],
          by simp [take_photo, hrun, hw, stop_preview],
          hzero2 (by simpa using hw)⟩
    | timedOut =>
      by_cases hw : s.preview_active
      · exact ⟨stopPreviewEvents s e.stopEnv, [],
          by simp [take_photo, hrun, hw, stop_preview], hzero e.stopEnv hw⟩
      · exact ⟨[], [], by simp [take_photo, hrun, hw],
          hzero2 (by simpa using hw)⟩
    | toolNotFound => exact absurd hrun hne
    | raisedOther =>
      by_cases hw : s.preview_active
      · exact ⟨stopPreviewEvents s e.stopEnv, [],
          by simp [take_photo, hrun, hw, stop_preview], hzero e.stopEnv hw⟩
      · exact ⟨[], [], by simp [take_photo, hrun, hw],
          hzero2 (by simpa using hw)⟩

/-- Witness for C9: at the initial configuration the process bounds hold,
and a concrete capture trace from it decomposes around the one-shot run
with no live preview at the run. -/
theorem lifecycle_exclusive_witness :
    (countK ProcKind.preview ([] : List ProcKind) ≤ 1 ∧
      countK ProcKind.video ([] : List ProcKind) ≤ 1) ∧
    ∃ evs rest, (take_photo initState ePhotoOk).2.1
        = evs ++ Event.runOneShot ProcKind.photo (some 10) :: rest ∧
      countK ProcKind.preview (applyEvents [] evs) = 0 :=
  ⟨(lifecycle_exclusive initState [] Reachable.init).1,
   (lifecycle_exclusive initState [] Reachable.init).2 ePhotoOk
     (by decide)⟩

/-- Claim C10: in every reachable state the recording flag equals the
presence of the video handle (so recording implies a non-null handle);
a start reporting success sets both together; and every exit path of
`stop_video_recording` other than the NotRecording guard -- the normal
path and the exception path alike -- clears both together. -/
theorem recording_flag_invariant :
    (∀ (s : AppState) (alive : List ProcKind), Reachable s alive →
      s.recording = s.video_process.isSome) ∧
    (∀ (s : AppState) (e : StartVideoEnv),
      (start_video_recording s e).2.2 = VideoStart.started →
      (start_video_recording s e).1.recording = true ∧
      (start_video_recording s e).1.video_process = some ()) ∧
    (∀ (s : AppState) (e : StopVideoEnv),
      (stop_video_recording s e).2.2 ≠ VideoStop.notRecording →
      (stop_video_recording s e).1.recording = false ∧
      (stop_video_recording s e).1.video_process = none) := by
  refine ⟨?_, ?_, ?_⟩
  · intro s alive h
    exact (reachable_coherent s alive h).2.2.2.2
  · intro s e hres
    by_cases hrec : s.recording
    · simp [start_video_recording, hrec] at hres
    · by_cases hsp : e.spawnRaises
      · simp [start_video_recording, hrec, hsp] at hres
      · cases hpoll : e.pollExit with
        | none =>
          refine ⟨?_, ?_⟩ <;>
            simp [start_video_recording, hrec, hsp, hpoll]
        | some c =>
          simp [start_video_recording, hrec, hsp, hpoll] at hres
  · intro s e hres
    by_cases hg : (!s.recording || s.video_process.isNone) = true
    · simp [stop_video_recording, hg] at hres
    · by_cases htr : e.termRaises
      · refine ⟨?_, ?_⟩ <;> simp [stop_video_recording, hg, htr]
      · refine ⟨?_, ?_⟩ <;> by_cases hok : e.restart.spawnOk <;>
          simp [stop_video_recording, hg, htr, hok, start_preview,
            stop_preview]

/-- Witness for C10: the invariant at the initial configuration, a
concrete successful start setting both fields, and a concrete stop
clearing both. -/
theorem recording_flag_invariant_witness :
    initState.recording = initState.video_process.isSome ∧
    ((start_video_recording initState eStartVideoOk).1.recording = true ∧
      (start_video_recording initState eStartVideoOk).1.video_process
        = some ()) ∧
    ((stop_video_recording sRecordingOn eStopVideoOk).1.recording
        = false ∧
      (stop_video_recording sRecordingOn eStopVideoOk).1.video_process
        = none) :=
  ⟨recording_flag_invariant.1 initState [] Reachable.init,
   recording_flag_invariant.2.1 initState eStartVideoOk (by decide),
   recording_flag_invariant.2.2 sRecordingOn eStopVideoOk (by decide)⟩

end CameraApp
